import Mathlib

/-!
Shallow embedding of the humre fragment-composition library
(src/src/humre/__init__.py) and proofs about it.

Modelling conventions:
* A variadic Python parameter `*listOfRegexStrs` becomes a `List String`.
* `''.join(listOfRegexStrs)` becomes `String.join`.
* Fallible functions (those that can `raise`) return `Except PyError String`;
  `PyError` carries the Python exception kind (`TypeError`/`ValueError`) and
  the exact message string from the source.
* Numeric arguments are dynamically typed in Python; `isinstance(x, int)`
  checks are modelled by the type `PyVal`, whose `nonInt` constructor stands
  for any Python value that is not an `int`.
* Python's `str()` of an `int` is `toString : Int → String` (decimal).
* The regex classes `\w` and `\d` used by `named_group`'s validation are
  modelled with their ASCII meaning `[A-Za-z0-9_]` / `[0-9]`; all claims
  under study use ASCII inputs only.
-/

namespace Humre

/-- Python exception raised by a humre function: the exception class
together with the exact message from the source. -/
inductive PyError where
  | typeError (msg : String)
  | valueError (msg : String)
deriving DecidableEq, Repr

/-- A Python value passed where the source expects an `int`: either an
actual `int`, or any other object (for which `isinstance(x, int)` is false;
the source never inspects such a value beyond the `isinstance` check). -/
inductive PyVal where
  | int (i : Int)
  | nonInt
deriving DecidableEq, Repr

/-- Is this Python value a non-negative `int`?  This is the condition the
numeric validation of the quantifier family is meant to enforce. -/
def isNonnegInt : PyVal → Bool
  | .int i => decide (0 ≤ i)
  | .nonInt => false

/-- The error raised by every `if regexStr == '': raise ValueError(...)`
check in the source; the spec's taxonomy calls it `EmptyOperand`. -/
def emptyOperandError : PyError :=
  .valueError ("listOfRegexStrs must have at least one nonblank value")

/-- Does this error belong to the spec's `InvalidQuantity` category?
These are exactly the errors raised by the numeric-argument checks. -/
def isInvalidQuantity : PyError → Bool
  | .typeError m =>
      m = "quantity must be a positive int" ||
      m = "minimum must be a positive int" ||
      m = "maximum must be a positive int"
  | .valueError m =>
      m = "quantity must be a positive int" ||
      m = "minimum must be a positive int" ||
      m = "maximum must be a positive int" ||
      m = "minimum greater than maximum"

/-- Does a call result carry an `InvalidQuantity` error? -/
def errorsWithInvalidQuantity : Except PyError String → Bool
  | .error e => isInvalidQuantity e
  | .ok _ => false

/-- The special characters of CPython's `re.escape`
(`re._special_chars_map`): each is replaced by itself prefixed with a
backslash; every other character is left unchanged. -/
def reSpecialChars : List Char :=
  ['(', ')', '[', ']', '\x7b', '\x7d', '?', '*', '+', '-', '|', '^', '$',
   '\\', '.', '&', '~', '#', ' ', '\t', '\n', '\r', '\x0b', '\x0c']

/-- How `re.escape` rewrites one character. -/
def escChar (c : Char) : List Char :=
  if c ∈ reSpecialChars then ['\\', c] else [c]

/-- Model of CPython's `re.escape` (an external collaborator of the
repository, called by `esc`): `pattern.translate(_special_chars_map)`. -/
def reEscape (s : String) : String :=
  String.mk (s.data.map escChar).flatten

/-- Source `esc(*listOfRegexStrs)`: `re.escape(''.join(listOfRegexStrs))`. -/
def esc (frags : List String) : String :=
  reEscape (String.join frags)

/-- Source `group(*listOfRegexStrs)`. -/
def group (frags : List String) : String :=
  "(" ++ String.join frags ++ ")"

/-- Source `positive_lookahead(*listOfRegexStrs)`. -/
def positive_lookahead (frags : List String) : String :=
  "(?=" ++ String.join frags ++ ")"

/-- Source `negative_lookahead(*listOfRegexStrs)`. -/
def negative_lookahead (frags : List String) : String :=
  "(?!" ++ String.join frags ++ ")"

/-- Source `positive_lookbehind(*listOfRegexStrs)`. -/
def positive_lookbehind (frags : List String) : String :=
  "(?<=" ++ String.join frags ++ ")"

/-- Source `negative_lookbehind(*listOfRegexStrs)`. -/
def negative_lookbehind (frags : List String) : String :=
  "(?<!" ++ String.join frags ++ ")"

/-- ASCII model of the regex class `\w`: letters, digits and underscore. -/
def isWordChar (c : Char) : Bool :=
  c.isAlpha || c.isDigit || c = '_'

/-- Source `named_group(name, *listOfRegexStrs)`.  The source check is
`if re.match(r'\w+', name) is None or re.match(r'^\d', name)`:
`re.match(r'\w+', name) is None` holds iff `name` is empty or its first
character is not a word character, and `re.match(r'^\d', name)` is truthy
iff the first character is a digit. -/
def named_group (name : String) (frags : List String) : Except PyError String :=
  let matchWordFailed : Bool :=
    match name.data with
    | [] => true
    | c :: _ => !isWordChar c
  let matchDigit : Bool :=
    match name.data with
    | [] => false
    | c :: _ => c.isDigit
  if matchWordFailed || matchDigit then
    .error (.valueError ("name must contain only letters, numbers, and underscore and not start with a number"))
  else
    .ok ("(?P<" ++ name ++ ">" ++ String.join frags ++ ")")

/-- Modelled from the spec: the Group Identifier grammar `[A-Za-z_]\w*`
(used to compare the spec's validation rule with the source's actual
check in `named_group`). -/
def specGroupIdentifier (name : String) : Bool :=
  match name.data with
  | [] => false
  | c :: rest => (c.isAlpha || c = '_') && rest.all isWordChar

/-- Source `optional(*listOfRegexStrs)`. -/
def optional (frags : List String) : Except PyError String :=
  let regexStr := String.join frags
  if regexStr = "" then .error emptyOperandError
  else .ok (regexStr ++ "?")

/-- Source `either(*listOfRegexStrs)`: drop empty strings, require at least one
to remain, join with a pipe. -/
def either (frags : List String) : Except PyError String :=
  let l := frags.filter (fun s => s != "")
  if l.length = 0 then .error emptyOperandError
  else .ok (String.intercalate "|" l)

/-- Source `exactly(quantity, *listOfRegexStrs)`. -/
def exactly (quantity : PyVal) (frags : List String) : Except PyError String :=
  match quantity with
  | .nonInt => .error (.typeError ("quantity must be a positive int"))
  | .int q =>
    if q < 0 then .error (.valueError ("quantity must be a positive int"))
    else
      let regexStr := String.join frags
      if regexStr = "" then .error emptyOperandError
      else .ok (regexStr ++ "\x7b" ++ toString q ++ "\x7d")

/-- Source `between(minimum, maximum, *listOfRegexStrs)`. -/
def between (minimum maximum : PyVal) (frags : List String) : Except PyError String :=
  match minimum with
  | .nonInt => .error (.typeError ("minimum must be a positive int"))
  | .int mn =>
    if mn < 0 then .error (.valueError ("minimum must be a positive int"))
    else
      match maximum with
      | .nonInt => .error (.typeError ("maximum must be a positive int"))
      | .int mx =>
        if mx < 0 then .error (.valueError ("maximum must be a positive int"))
        else if mn > mx then .error (.valueError ("minimum greater than maximum"))
        else
          let regexStr := String.join frags
          if regexStr = "" then .error emptyOperandError
          else .ok (regexStr ++ "\x7b" ++ toString mn ++ "," ++ toString mx ++ "\x7d")

/-- Source `at_least(minimum, *listOfRegexStrs)`. -/
def at_least (minimum : PyVal) (frags : List String) : Except PyError String :=
  match minimum with
  | .nonInt => .error (.typeError ("minimum must be a positive int"))
  | .int mn =>
    if mn < 0 then .error (.valueError ("minimum must be a positive int"))
    else
      let regexStr := String.join frags
      if regexStr = "" then .error emptyOperandError
      else .ok (regexStr ++ "\x7b" ++ toString mn ++ ",\x7d")

/-- Source `at_most(maximum, *listOfRegexStrs)`. -/
def at_most (maximum : PyVal) (frags : List String) : Except PyError String :=
  match maximum with
  | .nonInt => .error (.typeError ("maximum must be a positive int"))
  | .int mx =>
    if mx < 0 then .error (.valueError ("maximum must be a positive int"))
    else
      let regexStr := String.join frags
      if regexStr = "" then .error emptyOperandError
      else .ok (regexStr ++ "\x7b," ++ toString mx ++ "\x7d")

/-- Source `zero_or_more(*listOfRegexStrs)` (the source joins the list a second
time for the returned value). -/
def zero_or_more (frags : List String) : Except PyError String :=
  let regexStr := String.join frags
  if regexStr = "" then .error emptyOperandError
  else .ok (String.join frags ++ "*")

/-- Source `zero_or_more_lazy(*listOfRegexStrs)`. -/
def zero_or_more_lazy (frags : List String) : Except PyError String :=
  let regexStr := String.join frags
  if regexStr = "" then .error emptyOperandError
  else .ok (regexStr ++ "*?")

/-- Source `one_or_more(*listOfRegexStrs)`. -/
def one_or_more (frags : List String) : Except PyError String :=
  let regexStr := String.join frags
  if regexStr = "" then .error emptyOperandError
  else .ok (regexStr ++ "+")

/-- Source `one_or_more_lazy(*listOfRegexStrs)`. -/
def one_or_more_lazy (frags : List String) : Except PyError String :=
  let regexStr := String.join frags
  if regexStr = "" then .error emptyOperandError
  else .ok (regexStr ++ "+?")

/-- Source `chars(*listOfRegexStrs)`. -/
def chars (frags : List String) : Except PyError String :=
  let regexStr := String.join frags
  if regexStr = "" then .error emptyOperandError
  else .ok ("[" ++ regexStr ++ "]")

/-- Source `nonchars(*listOfRegexStrs)`. -/
def nonchars (frags : List String) : Except PyError String :=
  let regexStr := String.join frags
  if regexStr = "" then .error emptyOperandError
  else .ok ("[^" ++ regexStr ++ "]")

/-- Source `optional_group(*listOfRegexStrs)` (no validation at all). -/
def optional_group (frags : List String) : String :=
  "(" ++ String.join frags ++ ")?"

/-- Source `group_either(*listOfRegexStrs)`: drop empty strings, join with a
pipe inside a capturing group; no emptiness check. -/
def group_either (frags : List String) : String :=
  "(" ++ String.intercalate "|" (frags.filter (fun s => s != "")) ++ ")"

/-- Source `group_exactly(quantity, *listOfRegexStrs)`: validates the quantity
like `exactly` but never checks the fragments for emptiness. -/
def group_exactly (quantity : PyVal) (frags : List String) : Except PyError String :=
  match quantity with
  | .nonInt => .error (.typeError ("quantity must be a positive int"))
  | .int q =>
    if q < 0 then .error (.valueError ("quantity must be a positive int"))
    else .ok ("(" ++ String.join frags ++ ")\x7b" ++ toString q ++ "\x7d")

/-- Source `group_between(minimum, maximum, *listOfRegexStrs)`. -/
def group_between (minimum maximum : PyVal) (frags : List String) : Except PyError String :=
  match minimum with
  | .nonInt => .error (.typeError ("minimum must be a positive int"))
  | .int mn =>
    if mn < 0 then .error (.valueError ("minimum must be a positive int"))
    else
      match maximum with
      | .nonInt => .error (.typeError ("maximum must be a positive int"))
      | .int mx =>
        if mx < 0 then .error (.valueError ("maximum must be a positive int"))
        else if mn > mx then .error (.valueError ("minimum greater than maximum"))
        else .ok ("(" ++ String.join frags ++ ")\x7b" ++ toString mn ++ "," ++ toString mx ++ "\x7d")

/-- Source `group_at_least(minimum, *listOfRegexStrs)`. -/
def group_at_least (minimum : PyVal) (frags : List String) : Except PyError String :=
  match minimum with
  | .nonInt => .error (.typeError ("minimum must be a positive int"))
  | .int mn =>
    if mn < 0 then .error (.valueError ("minimum must be a positive int"))
    else .ok ("(" ++ String.join frags ++ ")\x7b" ++ toString mn ++ ",\x7d")

/-- Source `group_at_most(maximum, *listOfRegexStrs)`. -/
def group_at_most (maximum : PyVal) (frags : List String) : Except PyError String :=
  match maximum with
  | .nonInt => .error (.typeError ("maximum must be a positive int"))
  | .int mx =>
    if mx < 0 then .error (.valueError ("maximum must be a positive int"))
    else .ok ("(" ++ String.join frags ++ ")\x7b," ++ toString mx ++ "\x7d")

/-- Source `zero_or_more_group(*listOfRegexStrs)` (no validation). -/
def zero_or_more_group (frags : List String) : String :=
  "(" ++ String.join frags ++ ")*"

/-- Source `one_or_more_group(*listOfRegexStrs)` (no validation). -/
def one_or_more_group (frags : List String) : String :=
  "(" ++ String.join frags ++ ")+"

/-! Helper lemmas about joined fragment lists. -/

lemma join_eq_empty_iff (l : List String) : String.join l = "" ↔ ∀ s ∈ l, s = "" := by
  constructor
  · intro h s hs
    have h2 : (l.map String.data).flatten = [] := by
      have h3 := congrArg String.data h
      simpa using h3
    have h4 := List.flatten_eq_nil_iff.mp h2
    exact String.ext (h4 _ (List.mem_map_of_mem _ hs))
  · intro h
    apply String.ext
    simp only [String.data_join]
    apply List.flatten_eq_nil_iff.mpr
    intro d hd
    obtain ⟨s, hs, rfl⟩ := List.mem_map.mp hd
    rw [h s hs]

lemma empty_check_error_iff (s v : String) :
    ((if s = "" then Except.error emptyOperandError else Except.ok v) =
        Except.error emptyOperandError) ↔ s = "" := by
  split <;> simp_all

lemma either_error_iff (frags : List String) :
    either frags = .error emptyOperandError ↔
      frags.filter (fun s => s != "") = [] := by
  simp only [either]
  split
  · next hlen =>
    rw [List.length_eq_zero] at hlen
    simp [hlen]
  · next hlen =>
    rw [List.length_eq_zero] at hlen
    simp [hlen]

lemma escChar_flatten_eq (l : List Char) (h : ∀ c ∈ l, c ∉ reSpecialChars) :
    (l.map escChar).flatten = l := by
  induction l with
  | nil => rfl
  | cons c t ih =>
    have hc : c ∉ reSpecialChars := h c (List.mem_cons_self c t)
    have ht := ih (fun d hd => h d (List.mem_cons_of_mem c hd))
    simp [escChar, hc, ht]

lemma reEscape_eq_self (s : String) (h : ∀ c ∈ s.data, c ∉ reSpecialChars) :
    reEscape s = s := by
  apply String.ext
  exact escChar_flatten_eq s.data h

/-- C1: the claim states that `named_group` raises exactly when the name
fails the Group Identifier grammar, but the source only inspects the first
character of the name (its `re.match` calls are anchored at the start
only): for the name "a-b", which does not match the grammar, `named_group`
succeeds and returns "(?P<a-b>x)" instead of raising. -/
theorem C1_named_group_accepts_nonidentifier :
    named_group ("a-b") ["x"] = .ok ("(?P<a-b>x)") ∧
      specGroupIdentifier ("a-b") = false := by
  exact ⟨rfl, by decide⟩

/-- C7: each lookaround operation wraps the concatenation of its fragments
in its fixed template, and with zero fragments it returns the template
around the empty string rather than an error. -/
theorem C7_lookarounds_wrap_concatenation (frags : List String) :
    positive_lookahead frags = "(?=" ++ String.join frags ++ ")" ∧
    negative_lookahead frags = "(?!" ++ String.join frags ++ ")" ∧
    positive_lookbehind frags = "(?<=" ++ String.join frags ++ ")" ∧
    negative_lookbehind frags = "(?<!" ++ String.join frags ++ ")" ∧
    positive_lookahead [] = "(?=)" ∧
    negative_lookahead [] = "(?!)" ∧
    positive_lookbehind [] = "(?<=)" ∧
    negative_lookbehind [] = "(?<!)" := by
  refine ⟨rfl, rfl, rfl, rfl, ?_, ?_, ?_, ?_⟩ <;> decide

/-- C8: `group` always succeeds, returns the parenthesized in-order
concatenation of its fragments, and hence depends only on that
concatenation: `group [A, B] = group [A ++ B]`. -/
theorem C8_group_concatenation (frags : List String) (A B : String) :
    group frags = "(" ++ String.join frags ++ ")" ∧
      group [A, B] = group [A ++ B] := by
  refine ⟨rfl, ?_⟩
  show "(" ++ String.join [A, B] ++ ")" = "(" ++ String.join [A ++ B] ++ ")"
  have h : String.join [A, B] = String.join [A ++ B] := by
    show ("" ++ A) ++ B = "" ++ (A ++ B)
    rw [String.empty_append, String.empty_append]
  rw [h]

/-- C9: `esc` leaves any string without regex metacharacters unchanged
(hence is idempotent on such strings), and with zero fragments it returns
the empty string rather than an error. -/
theorem C9_escape_identity_on_safe (s : String)
    (h : ∀ c ∈ s.data, c ∉ reSpecialChars) :
    esc [s] = s ∧ esc [esc [s]] = esc [s] ∧ esc ([] : List String) = "" := by
  have h1 : esc [s] = s := by
    show reEscape (String.join [s]) = s
    rw [show String.join [s] = s from String.empty_append s]
    exact reEscape_eq_self s h
  refine ⟨h1, ?_, rfl⟩
  rw [h1]
  exact h1

/-- Witness for C9 at the metacharacter-free literal "cat". -/
theorem C9_escape_identity_on_safe_witness :
    esc ["cat"] = "cat" ∧ esc [esc ["cat"]] = esc ["cat"] ∧
      esc ([] : List String) = "" :=
  C9_escape_identity_on_safe ("cat") (by decide)

/-- C2: every quantifier operation and both character-class operations,
with numeric arguments that pass their own validation, raise the
`EmptyOperand` error exactly when the fragments concatenate to the empty
string. -/
theorem C2_empty_operand_iff (frags : List String) :
    (optional frags = .error emptyOperandError ↔ String.join frags = "") ∧
    (zero_or_more frags = .error emptyOperandError ↔ String.join frags = "") ∧
    (zero_or_more_lazy frags = .error emptyOperandError ↔ String.join frags = "") ∧
    (one_or_more frags = .error emptyOperandError ↔ String.join frags = "") ∧
    (one_or_more_lazy frags = .error emptyOperandError ↔ String.join frags = "") ∧
    (chars frags = .error emptyOperandError ↔ String.join frags = "") ∧
    (nonchars frags = .error emptyOperandError ↔ String.join frags = "") ∧
    (∀ i : Int, 0 ≤ i →
      (exactly (.int i) frags = .error emptyOperandError ↔ String.join frags = "")) ∧
    (∀ i j : Int, 0 ≤ i → 0 ≤ j → i ≤ j →
      (between (.int i) (.int j) frags = .error emptyOperandError ↔
        String.join frags = "")) ∧
    (∀ i : Int, 0 ≤ i →
      (at_least (.int i) frags = .error emptyOperandError ↔ String.join frags = "")) ∧
    (∀ j : Int, 0 ≤ j →
      (at_most (.int j) frags = .error emptyOperandError ↔ String.join frags = "")) := by
  refine ⟨?_, ?_, ?_, ?_, ?_, ?_, ?_, ?_, ?_, ?_, ?_⟩
  · exact empty_check_error_iff _ _
  · exact empty_check_error_iff _ _
  · exact empty_check_error_iff _ _
  · exact empty_check_error_iff _ _
  · exact empty_check_error_iff _ _
  · exact empty_check_error_iff _ _
  · exact empty_check_error_iff _ _
  · intro i hi
    have hi2 : ¬ i < 0 := by omega
    simp only [exactly, if_neg hi2]
    exact empty_check_error_iff _ _
  · intro i j hi hj hij
    have hi2 : ¬ i < 0 := by omega
    have hj2 : ¬ j < 0 := by omega
    have hij2 : ¬ i > j := by omega
    simp only [between, if_neg hi2, if_neg hj2, if_neg hij2]
    exact empty_check_error_iff _ _
  · intro i hi
    have hi2 : ¬ i < 0 := by omega
    simp only [at_least, if_neg hi2]
    exact empty_check_error_iff _ _
  · intro j hj
    have hj2 : ¬ j < 0 := by omega
    simp only [at_most, if_neg hj2]
    exact empty_check_error_iff _ _

/-- Witness for C2: the zero-argument `chars()` call and the
fragment-free `at_least(2)` call both fail with `EmptyOperand`. -/
theorem C2_empty_operand_iff_witness :
    chars ([] : List String) = .error emptyOperandError ∧
      at_least (.int 2) ([] : List String) = .error emptyOperandError := by
  obtain ⟨h1, h2, h3, h4, h5, h6, h7, h8, h9, h10, h11⟩ :=
    C2_empty_operand_iff []
  exact ⟨h6.mpr rfl, (h10 2 (by decide)).mpr rfl⟩

/-- C3: whatever the fragments are, `exactly` fails with an
`InvalidQuantity` error whenever its quantity is not a non-negative
integer, and `between` fails with an `InvalidQuantity` error whenever the
minimum or the maximum is not a non-negative integer, or the minimum
exceeds the maximum. -/
theorem C3_invalid_quantity (q mn mx : PyVal) (frags : List String) :
    (isNonnegInt q = false →
      errorsWithInvalidQuantity (exactly q frags) = true) ∧
    ((isNonnegInt mn = false ∨ isNonnegInt mx = false) →
      errorsWithInvalidQuantity (between mn mx frags) = true) ∧
    (∀ i j : Int, mn = .int i → mx = .int j → j < i →
      errorsWithInvalidQuantity (between mn mx frags) = true) := by
  refine ⟨?_, ?_, ?_⟩
  · intro hq
    cases q with
    | nonInt => rfl
    | int i =>
      have hi : i < 0 := by
        simp [isNonnegInt] at hq
        omega
      simp [exactly, hi, errorsWithInvalidQuantity, isInvalidQuantity]
  · intro h
    cases mn with
    | nonInt => rfl
    | int i =>
      by_cases hi : i < 0
      · simp [between, hi, errorsWithInvalidQuantity, isInvalidQuantity]
      · have hmx : isNonnegInt mx = false := by
          rcases h with h | h
          · exfalso
            simp [isNonnegInt] at h
            omega
          · exact h
        cases mx with
        | nonInt =>
          simp [between, hi, errorsWithInvalidQuantity, isInvalidQuantity]
        | int j =>
          have hj : j < 0 := by
            simp [isNonnegInt] at hmx
            omega
          simp [between, hi, hj, errorsWithInvalidQuantity, isInvalidQuantity]
  · intro i j hmn hmx hij
    subst hmn
    subst hmx
    by_cases hi : i < 0
    · simp [between, hi, errorsWithInvalidQuantity, isInvalidQuantity]
    · by_cases hj : j < 0
      · simp [between, hi, hj, errorsWithInvalidQuantity, isInvalidQuantity]
      · have hgt : i > j := hij
        simp [between, hi, hj, hgt, errorsWithInvalidQuantity, isInvalidQuantity]

/-- Witness for C3: `exactly(-1, "a")` and `between(5, 2, "a")` both fail
with an `InvalidQuantity` error. -/
theorem C3_invalid_quantity_witness :
    errorsWithInvalidQuantity (exactly (.int (-1)) ["a"]) = true ∧
      errorsWithInvalidQuantity (between (.int 5) (.int 2) ["a"]) = true := by
  obtain ⟨h1, h2, h3⟩ := C3_invalid_quantity (.int (-1)) (.int 5) (.int 2) ["a"]
  exact ⟨h1 (by decide), h3 5 2 rfl rfl (by decide)⟩

/-- C4: for all non-negative integers `a ≤ b` and fragments concatenating
to a non-empty string, `between` succeeds and returns the concatenation
followed by the brace-quantifier with the decimal renderings of `a` and
`b`. -/
theorem C4_between_success (a b : Int) (frags : List String)
    (ha : 0 ≤ a) (hab : a ≤ b) (hne : String.join frags ≠ "") :
    between (.int a) (.int b) frags =
      .ok (String.join frags ++ "\x7b" ++ toString a ++ "," ++ toString b ++ "\x7d") := by
  have ha2 : ¬ a < 0 := by omega
  have hb2 : ¬ b < 0 := by omega
  have hab2 : ¬ a > b := by omega
  simp [between, ha2, hb2, hab2, hne]

/-- Witness for C4: `between(3, 5, "a")` returns the literal result. -/
theorem C4_between_success_witness :
    between (.int 3) (.int 5) ["a"] = .ok ("a\x7b3,5\x7d") := by
  have h := C4_between_success 3 5 ["a"] (by decide) (by decide) (by decide)
  simpa using h

/-- C5: `either` fails with `EmptyOperand` exactly when every fragment is
the empty string, and otherwise returns the non-empty fragments (in
order) joined with a pipe and no enclosing group. -/
theorem C5_either_drops_empty (frags : List String) :
    (either frags = .error emptyOperandError ↔ ∀ s ∈ frags, s = "") ∧
    ((∃ s ∈ frags, s ≠ "") →
      either frags =
        .ok (String.intercalate "|" (frags.filter (fun s => s != "")))) := by
  constructor
  · rw [either_error_iff]
    simp [List.filter_eq_nil_iff]
  · intro h
    obtain ⟨s, hs, hne⟩ := h
    have hl : frags.filter (fun s => s != "") ≠ [] := by
      intro hnil
      exact hne (by simpa using List.filter_eq_nil_iff.mp hnil s hs)
    simp [either, List.length_eq_zero, hl]

/-- Witness for C5: `either(group("cat"), group("dog"))` equals the
literal string "(cat)|(dog)". -/
theorem C5_either_drops_empty_witness :
    either [group ["cat"], group ["dog"]] = .ok ("(cat)|(dog)") := by
  obtain ⟨h1, h2⟩ := C5_either_drops_empty [group ["cat"], group ["dog"]]
  have h3 := h2 ⟨group ["cat"], List.mem_cons_self _ _, by decide⟩
  exact h3.trans (congrArg Except.ok (by decide))

/-- C6: the grouped quantifier operations validate their numeric
arguments exactly as the unwrapped ones do (they produce an error exactly
when the unwrapped operation does on a non-empty operand, and the same
error), and on success return the parenthesized concatenation of the
fragments followed by the corresponding brace-quantifier suffix. -/
theorem C6_grouped_quantifiers (q mn mx : PyVal) (frags dummy : List String)
    (hdummy : String.join dummy ≠ "") :
    (∀ e, group_exactly q frags = .error e ↔ exactly q dummy = .error e) ∧
    (∀ e, group_between mn mx frags = .error e ↔ between mn mx dummy = .error e) ∧
    (∀ e, group_at_least mn frags = .error e ↔ at_least mn dummy = .error e) ∧
    (∀ e, group_at_most mx frags = .error e ↔ at_most mx dummy = .error e) ∧
    (∀ i : Int, q = .int i → 0 ≤ i →
      group_exactly q frags =
        .ok ("(" ++ String.join frags ++ ")\x7b" ++ toString i ++ "\x7d")) ∧
    (∀ i j : Int, mn = .int i → mx = .int j → 0 ≤ i → i ≤ j →
      group_between mn mx frags =
        .ok ("(" ++ String.join frags ++ ")\x7b" ++ toString i ++ "," ++
          toString j ++ "\x7d")) ∧
    (∀ i : Int, mn = .int i → 0 ≤ i →
      group_at_least mn frags =
        .ok ("(" ++ String.join frags ++ ")\x7b" ++ toString i ++ ",\x7d")) ∧
    (∀ j : Int, mx = .int j → 0 ≤ j →
      group_at_most mx frags =
        .ok ("(" ++ String.join frags ++ ")\x7b," ++ toString j ++ "\x7d")) := by
  refine ⟨?_, ?_, ?_, ?_, ?_, ?_, ?_, ?_⟩
  · intro e
    cases q with
    | nonInt => exact Iff.rfl
    | int i =>
      by_cases hi : i < 0
      · simp [group_exactly, exactly, hi]
      · simp [group_exactly, exactly, hi, hdummy]
  · intro e
    cases mn with
    | nonInt => exact Iff.rfl
    | int i =>
      by_cases hi : i < 0
      · simp [group_between, between, hi]
      · cases mx with
        | nonInt => simp [group_between, between, hi]
        | int j =>
          by_cases hj : j < 0
          · simp [group_between, between, hi, hj]
          · by_cases hij : i > j
            · simp [group_between, between, hi, hj, hij]
            · simp [group_between, between, hi, hj, hij, hdummy]
  · intro e
    cases mn with
    | nonInt => exact Iff.rfl
    | int i =>
      by_cases hi : i < 0
      · simp [group_at_least, at_least, hi]
      · simp [group_at_least, at_least, hi, hdummy]
  · intro e
    cases mx with
    | nonInt => exact Iff.rfl
    | int j =>
      by_cases hj : j < 0
      · simp [group_at_most, at_most, hj]
      · simp [group_at_most, at_most, hj, hdummy]
  · intro i hq hi
    subst hq
    have hi2 : ¬ i < 0 := by omega
    simp [group_exactly, hi2]
  · intro i j hmn hmx hi hij
    subst hmn
    subst hmx
    have hi2 : ¬ i < 0 := by omega
    have hj2 : ¬ j < 0 := by omega
    have hij2 : ¬ i > j := by omega
    simp [group_between, hi2, hj2, hij2]
  · intro i hmn hi
    subst hmn
    have hi2 : ¬ i < 0 := by omega
    simp [group_at_least, hi2]
  · intro j hmx hj
    subst hmx
    have hj2 : ¬ j < 0 := by omega
    simp [group_at_most, hj2]

/-- Witness for C6 at concrete numeric arguments and the fragment "a". -/
theorem C6_grouped_quantifiers_witness :
    group_exactly (.int 3) ["a"] = .ok ("(a)\x7b3\x7d") ∧
      group_between (.int 1) (.int 2) ["a"] = .ok ("(a)\x7b1,2\x7d") ∧
      group_at_least (.int 1) ["a"] = .ok ("(a)\x7b1,\x7d") ∧
      group_at_most (.int 2) ["a"] = .ok ("(a)\x7b,2\x7d") := by
  obtain ⟨e1, e2, e3, e4, s1, s2, s3, s4⟩ :=
    C6_grouped_quantifiers (.int 3) (.int 1) (.int 2) ["a"] ["x"] (by decide)
  refine ⟨?_, ?_, ?_, ?_⟩
  · exact (s1 3 rfl (by decide)).trans (congrArg Except.ok (by decide))
  · exact (s2 1 2 rfl rfl (by decide) (by decide)).trans
      (congrArg Except.ok (by decide))
  · exact (s3 1 rfl (by decide)).trans (congrArg Except.ok (by decide))
  · exact (s4 2 rfl (by decide)).trans (congrArg Except.ok (by decide))

/-- C10: the grouped variants never check for an empty operand: for valid
numeric arguments they accept fragments concatenating to the empty string
(including the zero-fragment call) and return a group around the empty
string instead of raising `EmptyOperand`. -/
theorem C10_grouped_accept_empty (frags : List String) (i j : Int)
    (hempty : String.join frags = "") (hi : 0 ≤ i) (hij : i ≤ j) :
    optional_group frags = "()?" ∧
    zero_or_more_group frags = "()*" ∧
    one_or_more_group frags = "()+" ∧
    group_either frags = "()" ∧
    group_exactly (.int i) frags = .ok ("()\x7b" ++ toString i ++ "\x7d") ∧
    group_between (.int i) (.int j) frags =
      .ok ("()\x7b" ++ toString i ++ "," ++ toString j ++ "\x7d") ∧
    group_at_least (.int i) frags = .ok ("()\x7b" ++ toString i ++ ",\x7d") ∧
    group_at_most (.int j) frags = .ok ("()\x7b," ++ toString j ++ "\x7d") := by
  have hi2 : ¬ i < 0 := by omega
  have hj2 : ¬ j < 0 := by omega
  have hij2 : ¬ i > j := by omega
  have hall : ∀ s ∈ frags, s = "" := (join_eq_empty_iff frags).mp hempty
  have hfilter : frags.filter (fun s => s != "") = [] :=
    List.filter_eq_nil_iff.mpr (fun a ha => by simpa using hall a ha)
  refine ⟨?_, ?_, ?_, ?_, ?_, ?_, ?_, ?_⟩
  · simp [optional_group, hempty]
  · simp [zero_or_more_group, hempty]
  · simp [one_or_more_group, hempty]
  · simp only [group_either, hfilter]
    decide
  · simp [group_exactly, hi2, hempty]
  · simp [group_between, hi2, hj2, hij2, hempty]
  · simp [group_at_least, hi2, hempty]
  · simp [group_at_most, hj2, hempty]

/-- Witness for C10 at the zero-fragment call with quantity 3. -/
theorem C10_grouped_accept_empty_witness :
    optional_group ([] : List String) = "()?" ∧
      group_either ([] : List String) = "()" ∧
      group_exactly (.int 3) ([] : List String) = .ok ("()\x7b3\x7d") := by
  obtain ⟨w1, w2, w3, w4, w5, w6, w7, w8⟩ :=
    C10_grouped_accept_empty [] 3 3 rfl (by decide) (by decide)
  exact ⟨w1, w4, w5.trans (congrArg Except.ok (by decide))⟩

end Humre
